import Mathlib

/-!
Verification development for the PharmaSentinel pipeline orchestrator and
decision-synthesis/alerting engine.  Each definition below is a shallow
embedding of a Python function or code path of the repository; theorems
settle the behavioural claims about those functions.

Numbers that Python stores as floats are embedded as rationals; a value that
Python may hold as `None` is embedded as an `Option`.  Fallible code is
embedded with `Except`.
-/

namespace PharmaSentinel

/-! Embedding of `agents/shared.py`. -/

/-- Embedding of `shared.calculate_burn_rate`: returns `stock / usage`, or
`None` when `usage_rate_daily == 0`. -/
def calculate_burn_rate (stock_quantity usage_rate_daily : ℚ) : Option ℚ :=
  if usage_rate_daily = 0 then none
  else some (stock_quantity / usage_rate_daily)

/-- Embedding of `shared.MONITORED_DRUGS` as `(rank, name)` pairs; the
`type`/`criticality` text fields are never read by the embedded code paths. -/
def MONITORED_DRUGS : List (Nat × String) :=
  [(1, "Epinephrine"), (2, "Oxygen"), (3, "Levofloxacin"), (4, "Propofol"),
   (5, "Penicillin"), (6, "IV Fluids"), (7, "Heparin"), (8, "Insulin"),
   (9, "Morphine"), (10, "Vaccines")]

/-! Python-semantics helpers shared by the embeddings. -/

/-- Python `a or b` on two optional floats: `a` is kept when it is truthy
(present and nonzero), otherwise the result is `b`. -/
def pyOrNum (a b : Option ℚ) : Option ℚ :=
  match a with
  | some q => if q = 0 then b else some q
  | none => b

/-- Python `a or b` on two optional strings: `a` is kept when it is truthy
(present and nonempty), otherwise the result is `b`. -/
def pyOrStr (a b : Option String) : Option String :=
  match a with
  | some s => if s = "" then b else some s
  | none => b

/-- Rendering of an optional value inside a Python f-string: `None` renders
as the string "None". -/
def fmtOptStr (s : Option String) : String :=
  match s with
  | some v => v
  | none => "None"

/-- Rendering of a rational inside a Python f-string.  The embedding renders
the exact rational; Python rounds floats for display.  The rendered text only
appears inside free-text `description`/`data_value` fields, which no claim
inspects. -/
def fmtNum (q : ℚ) : String := toString q

/-- Rendering of an optional number inside a Python f-string. -/
def fmtOptNum (q : Option ℚ) : String :=
  match q with
  | some x => fmtNum x
  | none => "None"

/-- Helper for Python's `needle in hay` on strings, over character lists. -/
def charsContain (needle : List Char) : List Char → Bool
  | [] => needle.isEmpty
  | c :: t => needle.isPrefixOf (c :: t) || charsContain needle t

/-- Python `needle in hay` substring test. -/
def pyInStr (needle hay : String) : Bool :=
  charsContain needle.toList hay.toList

/-! Data model rows, as consumed by `overseer.generate_fallback_decisions`
and `overseer.run`.  A field embeds one dictionary key; `Option` marks keys
that may be absent or `None`. -/

/-- One element of the engine's `data_source`: either a row of the `drugs`
table (keys `name`, `burn_rate_days`, ...) or one entry of agent_0's
`drug_analysis` (keys `drug_name`, `predicted_burn_rate_days`, ...). -/
structure InvItem where
  id : Option Nat := none
  drug_name : Option String := none
  name : Option String := none
  predicted_burn_rate_days : Option ℚ := none
  burn_rate_days : Option ℚ := none
  stock_quantity : Option ℚ := none
  usage_rate_daily : Option ℚ := none
deriving DecidableEq

/-- A row of the `shortages` table as returned by
`shared.get_unresolved_shortages` (already filtered to `resolved = False`). -/
structure ShortageRecord where
  drug_name : Option String := none
  source : Option String := none
  source_url : Option String := none
  impact_severity : Option String := none
  description : Option String := none
deriving DecidableEq

/-- One evidence entry attached to a decision. -/
structure Evidence where
  source_type : String
  description : String
  source_url : Option String := none
  data_value : String := ""
deriving DecidableEq

/-- One decision dictionary as built by the fallback engine (all keys
present). -/
structure Decision where
  action_type : String
  severity : String
  drug_name : String
  title : String
  description : String
  evidence : List Evidence
deriving DecidableEq

/-- One entry of `drugs_needing_orders`. -/
structure OrderRequest where
  drug_name : String
  quantity : ℚ
  urgency : String
deriving DecidableEq

/-- The analysis payload shape produced by the fallback engine and consumed
by the writer and the pipeline.  `Option` on the list fields embeds Python's
`'key' in payload` / `payload.get(key, [])` checks: an LLM payload may lack
any of them. -/
structure SynthesisResult where
  decisions : Option (List Decision) := none
  drugs_needing_orders : Option (List OrderRequest) := none
  drugs_needing_substitutes : Option (List String) := none
  schedule_adjustments : Option (List String) := none
  summary : String := ""
deriving DecidableEq

/-! Embedding of `overseer.generate_fallback_decisions`. -/

/-- The entries of `shortage_map[name]`: the dictionary is keyed by truthy
`drug_name` values, preserving insertion order per key. -/
def shortage_map_entries (shortages : List ShortageRecord) (name : String) :
    List ShortageRecord :=
  shortages.filter fun s =>
    match s.drug_name with
    | some n => n != "" && n == name
    | none => false

/-- Python `drug_name in shortage_map`. -/
def shortage_map_contains (shortages : List ShortageRecord) (name : String) :
    Bool :=
  !(shortage_map_entries shortages name).isEmpty

/-- The INVENTORY evidence entry the fallback engine attaches to every
decision. -/
def inventory_evidence (burn_rate : ℚ) (stock usage : Option ℚ) : Evidence :=
  { source_type := "INVENTORY"
    description := "Current stock level and burn rate calculation"
    source_url := none
    data_value := "burn_rate: " ++ fmtNum burn_rate ++ " days, stock: "
      ++ fmtOptNum stock ++ ", daily_usage: " ++ fmtOptNum usage }

/-- The evidence entry built from one shortage record: tagged FDA when the
record's `source` contains "FDA", else NEWS.  (`description` uses the
dict-get default when the key is absent.) -/
def shortage_evidence (s : ShortageRecord) : Evidence :=
  { source_type := if pyInStr "FDA" (fmtOptStr s.source ) then "FDA" else "NEWS"
    description :=
      match s.description with
      | some d => d
      | none => "Active shortage reported"
    source_url := s.source_url
    data_value := "severity: " ++ fmtOptStr s.impact_severity ++ ", source: "
      ++ fmtOptStr s.source }

/-- The body of the fallback engine's per-item loop: the decisions, order
requests and substitute listings this item contributes.  Mirrors
`overseer.generate_fallback_decisions` lines 165-221. -/
def fallback_item_output (shortages : List ShortageRecord) (item : InvItem) :
    List Decision × List OrderRequest × List String :=
  let name? := pyOrStr item.drug_name item.name
  let burn? := pyOrNum item.predicted_burn_rate_days item.burn_rate_days
  match burn?, name? with
  | some burn_rate, some drug_name =>
    match MONITORED_DRUGS.find? (fun d => d.2 == drug_name) with
    | none => ([], [], [])
    | some drug_info =>
      let evidence :=
        inventory_evidence burn_rate item.stock_quantity item.usage_rate_daily ::
          (if shortage_map_contains shortages drug_name then
            (shortage_map_entries shortages drug_name).map shortage_evidence
          else [])
      if burn_rate < 7 then
        ([{ action_type := "RESTOCK_NOW"
            severity := if burn_rate < 3 then "CRITICAL" else "URGENT"
            drug_name := drug_name
            title := "Critically Low Stock: " ++ drug_name
            description := "Stock for " ++ drug_name ++ " is critically low with ~"
              ++ fmtNum burn_rate ++ " days remaining. Immediate action required."
            evidence := evidence }],
         [{ drug_name := drug_name
            quantity := 100
            urgency := if burn_rate < 3 then "EMERGENCY" else "EXPEDITED" }],
         if drug_info.1 ≤ 5 then [drug_name] else [])
      else if burn_rate < 14 then
        ([{ action_type := "SHORTAGE_WARNING"
            severity := "WARNING"
            drug_name := drug_name
            title := "Monitor Stock: " ++ drug_name
            description := drug_name ++ " has ~" ++ fmtNum burn_rate
              ++ " days of stock remaining. Monitor closely."
            evidence := evidence }], [], [])
      else ([], [], [])
  | _, _ => ([], [], [])

/-- The consolidated `agent_outputs` dictionary passed to the engine; only
the `agent_0` payload's `drug_analysis` list is read. -/
structure AgentLogs where
  agent_0_drug_analysis : Option (List InvItem) := none
deriving DecidableEq

/-- Python `agent_logs.get('agent_0', dict()).get('drug_analysis', [])`. -/
def inventory_analysis_of (agent_logs : AgentLogs) : List InvItem :=
  match agent_logs.agent_0_drug_analysis with
  | some l => l
  | none => []

/-- Embedding of `overseer.generate_fallback_decisions`: the deterministic
rule engine run when the LLM call yields no payload. -/
def generate_fallback_decisions (inventory : List InvItem)
    (agent_logs : AgentLogs) (shortages : List ShortageRecord) :
    SynthesisResult :=
  let inventory_analysis := inventory_analysis_of agent_logs
  let data_source :=
    if inventory_analysis.isEmpty then inventory else inventory_analysis
  let out := data_source.foldl
    (fun acc item =>
      let o := fallback_item_output shortages item
      (acc.1 ++ o.1, acc.2.1 ++ o.2.1, acc.2.2 ++ o.2.2))
    ([], [], [])
  { decisions := some out.1
    drugs_needing_orders := some out.2.1
    drugs_needing_substitutes := some out.2.2
    schedule_adjustments := some []
    summary := "Fallback analysis: " ++ toString out.1.length
      ++ " alerts generated based on inventory burn rates." }

/-! Embedding of the alert writer, `overseer.run` step 4. -/

/-- A row of the `alerts` table as inserted by the writer (the pre-read
selects the `alert_type`, `drug_name`, `title` and `run_id` columns of such
rows). -/
structure AlertInsert where
  run_id : String
  alert_type : Option String := none
  severity : Option String := none
  drug_name : Option String := none
  drug_id : Option Nat := none
  title : Option String := none
  description : Option String := none
  action_payload_evidence : List Evidence := []
deriving DecidableEq

/-- The writer's dedup key for an incoming decision,
`f"{action_type}|{drug_name}|{title}"`. -/
def alert_key (d : Decision) : String :=
  d.action_type ++ "|" ++ d.drug_name ++ "|" ++ d.title

/-- The dedup key of an already persisted alert row,
`f"{alert_type}|{drug_name}|{title}"` (Python renders `None` as "None"). -/
def persisted_key (a : AlertInsert) : String :=
  fmtOptStr a.alert_type ++ "|" ++ fmtOptStr a.drug_name ++ "|" ++ fmtOptStr a.title

/-- The `existing_keys` set: keys of the alerts already persisted for the
current run token (`.eq('run_id', str(run_id))` pre-read). -/
def existing_keys (run_id : String) (store : List AlertInsert) : List String :=
  (store.filter fun a => a.run_id == run_id).map persisted_key

/-- The row the writer builds for one surviving decision: the decision's
fields, the run token, and the drug id looked up by name in the inventory
snapshot. -/
def alert_insert_row (run_id : String) (inventory : List InvItem)
    (d : Decision) : AlertInsert :=
  { run_id := run_id
    alert_type := some d.action_type
    severity := some d.severity
    drug_name := some d.drug_name
    drug_id := ((inventory.find? fun row => row.name == some d.drug_name).bind
      fun row => row.id)
    title := some d.title
    description := some d.description
    action_payload_evidence := d.evidence }

/-- Embedding of the writer loop of `overseer.run` (lines 409-435): the rows
appended to `alerts_to_insert`, in order.  A decision whose key is already in
`existing_keys` is skipped; the pre-read key set is not extended while the
batch is processed. -/
def alert_writer (run_id : String) (store : List AlertInsert)
    (decisions : List Decision) (inventory : List InvItem) :
    List AlertInsert :=
  decisions.foldl
    (fun acc d =>
      if (existing_keys run_id store).contains (alert_key d) then acc
      else acc ++ [alert_insert_row run_id inventory d])
    []

/-! Embedding of `overseer.run`'s control flow around the reasoning call. -/

/-- Outcome of the whole MCP/LLM step of `overseer.run` (`asyncio.run` of
`run_overseer_with_mcp`): either some exception propagated out of it, or it
returned a payload (`none` embeds a falsy return). -/
inductive LlmOutcome where
  | raised (msg : String)
  | returned (payload : Option SynthesisResult)
deriving DecidableEq

/-- Embedding of `overseer.run`: on a raised reasoning step the outer
`except` logs the error and returns `None` (first component `none`) and no
alert is written; otherwise a falsy payload is replaced by the deterministic
fallback, and the writer persists the deduplicated decisions (only when the
payload has a `decisions` key).  The second component is the alerts table
after the run. -/
def overseer_run (llm : LlmOutcome) (inventory : List InvItem)
    (agent_logs : AgentLogs) (shortages : List ShortageRecord)
    (store : List AlertInsert) (run_id : String) :
    Option SynthesisResult × List AlertInsert :=
  match llm with
  | .raised _ => (none, store)
  | .returned p =>
    let analysis :=
      match p with
      | some a => a
      | none => generate_fallback_decisions inventory agent_logs shortages
    let inserts :=
      match analysis.decisions with
      | some ds => alert_writer run_id store ds inventory
      | none => []
    (some analysis, store ++ inserts)

/-! Embedding of `agents/dedalus_tools.py`. -/

/-- A full row of the `alerts` table, as seen by the cleanup tool.  The
fields beyond `id` and `acknowledged` are carried so the deletion theorem can
quantify over run token, drug and age. -/
structure AlertsTableRow where
  id : Nat
  acknowledged : Bool
  run_id : String := ""
  drug_name : String := ""
  age_days : Nat := 0
deriving DecidableEq

/-- Embedding of `dedalus_tools.delete_redundant_entries`: selects the ids of
all rows with `acknowledged = False` and deletes the rows with those ids;
returns the table afterwards. -/
def delete_redundant_entries (table : List AlertsTableRow) :
    List AlertsTableRow :=
  let ids_to_delete := (table.filter fun r => r.acknowledged == false).map
    fun r => r.id
  table.filter fun r => !(ids_to_delete.contains r.id)

/-- The externally visible operations of `overseer.run_overseer_with_mcp`, in
program order. -/
inductive OverseerOp where
  | mcpConnect
  | mcpListTools
  | cleanupTool
  | reasoningCall
deriving DecidableEq

/-- Embedding of the operation sequence of `overseer.run_overseer_with_mcp`
(lines 297-388): when the MCP connection and the tool listing succeed, the
cleanup tool is invoked (inside its own try/except, so regardless of its own
outcome) before the first reasoning call; the first reasoning call passes a
`tools` keyword that `shared.call_dedalus` does not accept, so the `except`
branch issues the plain reasoning call afterwards.  When connecting or
listing tools fails, the `except` branch issues the plain reasoning call
directly, without any cleanup. -/
def run_overseer_with_mcp_ops (connect_ok list_tools_ok : Bool) :
    List OverseerOp :=
  if connect_ok then
    if list_tools_ok then
      [.mcpConnect, .mcpListTools, .cleanupTool, .reasoningCall, .reasoningCall]
    else
      [.mcpConnect, .mcpListTools, .reasoningCall]
  else
    [.mcpConnect, .reasoningCall]

/-! Embedding of `agents/pipeline.py`. -/

/-- The environment of one full run: the outcome each unit would produce when
invoked (an `Except.error` embeds a raised exception). -/
structure PipelineEnv where
  agent_0 : Except String Unit
  agent_1 : Except String Unit
  agent_2 : Except String Unit
  overseer : Except String (Option SynthesisResult)
  agent_3 : Except String Unit
  agent_4 : Except String Unit

/-- The run report assembled by `pipeline.run_pipeline`, restricted to the
fields the claims are about.  `executed` lists the phases that ran, in
program order; `raised` records whether `run_pipeline` re-raised. -/
structure PipelineReport where
  status : String
  errors : List String
  phase_1 : List (String × String)
  executed : List String
  raised : Bool
deriving DecidableEq

/-- Embedding of `pipeline.run_phase_1_parallel`: each collector's exception
is captured (`return_exceptions=True`) and converted into a per-agent status
entry; nothing is appended to the run's `errors` list. -/
def run_phase_1_parallel (env : PipelineEnv) : List (String × String) :=
  [("agent_0", match env.agent_0 with | .ok _ => "success" | .error _ => "failed"),
   ("agent_1", match env.agent_1 with | .ok _ => "success" | .error _ => "failed"),
   ("agent_2", match env.agent_2 with | .ok _ => "success" | .error _ => "failed")]

/-- Embedding of `pipeline.run_pipeline`: phase 1 fans out the collectors
(failures recorded per agent only); a phase-2 exception or a `None` overseer
result aborts the run with status "failed" (re-raised); otherwise phases 3
and 4 run exactly when the synthesizer's work lists are nonempty, their
exceptions appended to `errors`; the final status is
"completed_with_errors" iff `errors` is nonempty, else "success". -/
def run_pipeline (env : PipelineEnv) : PipelineReport :=
  let phase1 := run_phase_1_parallel env
  match env.overseer with
  | .error e =>
    { status := "failed"
      errors := ["Phase 2 (Overseer): " ++ e, "Pipeline failure: " ++ e]
      phase_1 := phase1
      executed := ["phase_1", "phase_2"]
      raised := true }
  | .ok none =>
    { status := "failed"
      errors := ["Pipeline failure: Overseer failed to return results, cannot proceed to conditional phases."]
      phase_1 := phase1
      executed := ["phase_1", "phase_2"]
      raised := true }
  | .ok (some payload) =>
    let subs := payload.drugs_needing_substitutes.getD []
    let p3 : List String × List String :=
      if subs.isEmpty then ([], [])
      else
        match env.agent_3 with
        | .ok _ => (["phase_3"], [])
        | .error e => (["phase_3"], ["Phase 3 (Substitutes): " ++ e])
    let orders := payload.drugs_needing_orders.getD []
    let p4 : List String × List String :=
      if orders.isEmpty then ([], [])
      else
        match env.agent_4 with
        | .ok _ => (["phase_4"], [])
        | .error e => (["phase_4"], ["Phase 4 (Orders): " ++ e])
    let errs := p3.2 ++ p4.2
    { status := if errs.isEmpty then "success" else "completed_with_errors"
      errors := errs
      phase_1 := phase1
      executed := ["phase_1", "phase_2"] ++ p3.1 ++ p4.1
      raised := false }

/-! Embedding of `pipeline.run_quick_pipeline` with Python call semantics. -/

/-- Python call binding: calling a function whose parameter names are
`params` with `pos` positional arguments and keyword arguments `kws` raises
`TypeError` when a keyword is not among the parameter names, or when there
are more positional arguments than parameters. -/
def python_call (params : List String) (pos : Nat) (kws : List String) :
    Except String Unit :=
  if kws.any (fun k => !(params.contains k)) then
    .error "TypeError: unexpected keyword argument"
  else if params.length < pos then
    .error "TypeError: too many positional arguments"
  else
    .ok ()

/-- Parameter list of `agent_0_inventory.run`, whose definition is
`def run(run_id: str)`. -/
def agent_0_run_params : List String := ["run_id"]

/-- Parameter list of `overseer.run`, whose definition is
`def run(run_id: UUID)`. -/
def overseer_run_params : List String := ["run_id"]

/-- The environment of one quick run: the body outcome each sub-step would
produce if its call binds. -/
structure QuickEnv where
  agent_0 : Except String Unit
  overseer : Except String (Option SynthesisResult)

/-- The quick-run report, restricted to the fields the claims are about. -/
structure QuickReport where
  status : String
  errors : List String
deriving DecidableEq

/-- Embedding of `pipeline.run_quick_pipeline`: it first calls
`agent_0_inventory.run(run_id, quick_mode=True)` (one positional argument
plus the `quick_mode` keyword), then `overseer.run(run_id)`; any exception is
recorded and re-raised (`Except.error`); on success it returns the report,
whose initial status "success_quick" is never overwritten. -/
def run_quick_pipeline (env : QuickEnv) : Except String QuickReport :=
  match python_call agent_0_run_params 1 ["quick_mode"] with
  | .error e => .error e
  | .ok _ =>
    match env.agent_0 with
    | .error e => .error e
    | .ok _ =>
      match python_call overseer_run_params 1 [] with
      | .error e => .error e
      | .ok _ =>
        match env.overseer with
        | .error e => .error e
        | .ok _ => .ok { status := "success_quick", errors := [] }

/-! Embedding of the real-time trigger gate, `main.handle_db_change`. -/

/-- The event types the gate processes. -/
def watched_event_types : List String := ["UPDATE", "INSERT", "DELETE"]

/-- The gate's mutable state: the last accepted trigger time and the
decrementing self-write skip counter. -/
structure GateState where
  last_run_time : ℤ
  skip_count : ℕ
deriving DecidableEq

/-- One parsed change-feed notification.  `arrival_time` embeds the
`time.time()` reading taken on entry (the code re-reads the clock when
storing `last_run_time`; the embedding uses the same instant). -/
structure RealtimeEvent where
  table : Option String
  event_type : Option String
  arrival_time : ℤ
deriving DecidableEq

/-- The debounce window, `min_interval = 2` seconds. -/
def min_interval : ℤ := 2

/-- Embedding of `main.handle_db_change`: returns the updated gate state and
whether a quick run was launched.  Filters in code order: event type, table,
skip counter (decremented and suppressed regardless of timing), debounce. -/
def handle_db_change (st : GateState) (e : RealtimeEvent) : GateState × Bool :=
  let event_ok :=
    match e.event_type with
    | some t => watched_event_types.contains t
    | none => false
  if !event_ok then (st, false)
  else if e.table != some "drugs" then (st, false)
  else if 0 < st.skip_count then
    ({ st with skip_count := st.skip_count - 1 }, false)
  else if e.arrival_time - st.last_run_time < min_interval then (st, false)
  else ({ st with last_run_time := e.arrival_time }, true)

/-! Modelled from the spec: the alert metadata derivation.
`determine_alert_metadata` and `ACTION_REQUIRED_TYPES` are imported from
`agents.overseer` by `agents/test_overseer_logic.py` but are absent from the
provided `agents/overseer.py`; they are modelled here from §4.4 of the spec,
consistent with that test's assertions. -/

/-- Modelled from the spec: the fixed `actionRequired` lookup table of §4.4
(`ACTION_REQUIRED_TYPES` in the test). -/
def ACTION_REQUIRED_TYPES : List (String × Bool) :=
  [("RESTOCK_NOW", true), ("SCHEDULE_CHANGE", true), ("SUPPLY_CHAIN_RISK", true),
   ("SHORTAGE_WARNING", false), ("SUBSTITUTE_RECOMMENDED", false)]

/-- Modelled from the spec: a "well-formed external link" is a present URL
with an http(s) scheme. -/
def is_well_formed_link (u : Option String) : Bool :=
  match u with
  | some s =>
    "http://".toList.isPrefixOf s.toList || "https://".toList.isPrefixOf s.toList
  | none => false

/-- The derived metadata pair of §4.4. -/
structure AlertMetadata where
  action_required : Bool
  source : Option String
deriving DecidableEq

/-- Modelled from the spec: `determine_alert_metadata`: `action_required` is
the fixed table lookup on the action type alone; `source` is the URL of the
first evidence entry with a well-formed external link, else the literal
"Stock" when any INVENTORY evidence exists, else empty. -/
def determine_alert_metadata (alert_type : String) (evidence : List Evidence) :
    AlertMetadata :=
  { action_required :=
      match ACTION_REQUIRED_TYPES.find? (fun p => p.1 == alert_type) with
      | some p => p.2
      | none => false
    source :=
      match evidence.find? (fun e => is_well_formed_link e.source_url) with
      | some e => e.source_url
      | none =>
        if evidence.any (fun e => e.source_type == "INVENTORY") then some "Stock"
        else none }

/-! The §4.3 rule table, stated from the spec's words, for the refinement
comparison of claim C1.  These definitions follow the specification text,
not the source. -/

/-- From the spec's words (§4.3): the action types the table emits for burn
rate `b`, rank `r`, and presence of an unresolved shortage. -/
def spec43_action_types (b : ℚ) (r : Nat) (unresolved_shortage : Bool) :
    List String :=
  if b < 7 then
    "RESTOCK_NOW" ::
      (if r ≤ 5 ∧ unresolved_shortage = true then ["SUBSTITUTE_RECOMMENDED"]
       else [])
  else if b < 14 then ["SHORTAGE_WARNING"]
  else if b < 30 ∧ unresolved_shortage = true then ["SUPPLY_CHAIN_RISK"]
  else []

/-- From the spec's words (§4.3): the severity of the table's primary
decision. -/
def spec43_severity (b : ℚ) (r : Nat) (unresolved_shortage : Bool) :
    Option String :=
  if b < 3 then some "CRITICAL"
  else if b < 7 then some "URGENT"
  else if b < 14 then
    some (if unresolved_shortage then "URGENT" else "WARNING")
  else if b < 30 ∧ unresolved_shortage = true then
    some (if r ≤ 5 then "WARNING" else "INFO")
  else none

/-- From the spec's words (§4.3): the urgency of the queued downstream order
request, when one is queued. -/
def spec43_order_urgency (b : ℚ) (unresolved_shortage : Bool) :
    Option String :=
  if b < 3 then some "EMERGENCY"
  else if b < 7 then some "EXPEDITED"
  else if b < 14 then
    some (if unresolved_shortage then "EXPEDITED" else "ROUTINE")
  else none

/-! Helper lemmas shared by several claims. -/

/-- A one-item data source: the engine's output is exactly that item's
contribution. -/
lemma generate_fallback_decisions_single (item : InvItem) (logs : AgentLogs)
    (shortages : List ShortageRecord)
    (hlogs : logs.agent_0_drug_analysis = none) :
    generate_fallback_decisions [item] logs shortages =
      { decisions := some (fallback_item_output shortages item).1
        drugs_needing_orders := some (fallback_item_output shortages item).2.1
        drugs_needing_substitutes := some (fallback_item_output shortages item).2.2
        schedule_adjustments := some []
        summary := "Fallback analysis: "
          ++ toString (fallback_item_output shortages item).1.length
          ++ " alerts generated based on inventory burn rates." } := by
  simp [generate_fallback_decisions, inventory_analysis_of, hlogs]

/-- The writer loop unrolled: surviving decisions, in order, mapped to their
insert rows. -/
lemma alert_writer_foldl (run_id : String) (store : List AlertInsert)
    (inventory : List InvItem) (decisions : List Decision)
    (acc : List AlertInsert) :
    decisions.foldl
      (fun acc d =>
        if (existing_keys run_id store).contains (alert_key d) then acc
        else acc ++ [alert_insert_row run_id inventory d])
      acc =
    acc ++ (decisions.filter
        fun d => !(existing_keys run_id store).contains (alert_key d)).map
      (alert_insert_row run_id inventory) := by
  induction decisions generalizing acc with
  | nil => simp
  | cons d t ih =>
    simp only [List.foldl_cons, List.filter_cons]
    by_cases h : (existing_keys run_id store).contains (alert_key d) = true
    · rw [if_pos h, ih, h]
      simp
    · have hb : (existing_keys run_id store).contains (alert_key d) = false := by
        revert h
        cases (existing_keys run_id store).contains (alert_key d) <;> simp
      rw [if_neg h, ih, hb]
      simp

/-- The writer as a filter-then-map. -/
lemma alert_writer_eq (run_id : String) (store : List AlertInsert)
    (decisions : List Decision) (inventory : List InvItem) :
    alert_writer run_id store decisions inventory =
      (decisions.filter
          fun d => !(existing_keys run_id store).contains (alert_key d)).map
        (alert_insert_row run_id inventory) := by
  unfold alert_writer
  rw [alert_writer_foldl]
  simp

/-- The key of a freshly inserted row equals the incoming decision's key. -/
lemma persisted_key_insert_row (run_id : String) (inventory : List InvItem)
    (d : Decision) :
    persisted_key (alert_insert_row run_id inventory d) = alert_key d := rfl

/-- Pre-read keys distribute over an appended store. -/
lemma existing_keys_append (run_id : String) (s₁ s₂ : List AlertInsert) :
    existing_keys run_id (s₁ ++ s₂) =
      existing_keys run_id s₁ ++ existing_keys run_id s₂ := by
  simp [existing_keys]

/-! Claim C6. -/

/-- C6 (confirmed): the burn-rate computation returns `stock/usage` for
positive usage and the unknown marker `none` for zero usage; an unknown burn
rate satisfies no "< N days" comparison; and an inventory item whose
burn-rate fields are unknown (as produced by `calculate_burn_rate` at zero
usage) contributes no decision, no order request and no substitute listing
to the fallback engine, whatever the shortage records. -/
theorem c6_burn_rate_unknown_safe (stock usage : ℚ) (item : InvItem)
    (logs : AgentLogs) (shortages : List ShortageRecord)
    (hpred : item.predicted_burn_rate_days = none)
    (hburn : item.burn_rate_days = calculate_burn_rate stock 0)
    (hlogs : logs.agent_0_drug_analysis = none) :
    (0 < usage → calculate_burn_rate stock usage = some (stock / usage)) ∧
    calculate_burn_rate stock 0 = none ∧
    (∀ N : ℚ, ¬ ∃ q ∈ calculate_burn_rate stock 0, q < N) ∧
    (generate_fallback_decisions [item] logs shortages).decisions = some [] ∧
    (generate_fallback_decisions [item] logs shortages).drugs_needing_orders
      = some [] ∧
    (generate_fallback_decisions [item] logs shortages).drugs_needing_substitutes
      = some [] := by
  have hzero : calculate_burn_rate stock 0 = none := by
    simp [calculate_burn_rate]
  have hresolved : pyOrNum item.predicted_burn_rate_days item.burn_rate_days
      = none := by
    simp [pyOrNum, hpred, hburn, hzero]
  have hitem : fallback_item_output shortages item = ([], [], []) := by
    simp only [fallback_item_output, hresolved]
  refine ⟨fun hu => ?_, hzero, ?_, ?_, ?_, ?_⟩
  · have : usage ≠ 0 := ne_of_gt hu
    simp [calculate_burn_rate, this]
  · intro N h
    rcases h with ⟨q, hq, _⟩
    simp [hzero] at hq
  · rw [generate_fallback_decisions_single item logs shortages hlogs, hitem]
  · rw [generate_fallback_decisions_single item logs shortages hlogs, hitem]
  · rw [generate_fallback_decisions_single item logs shortages hlogs, hitem]

/-- Witness for C6 at `stock = 200`, `usage = 10`, on a drugs-table row for
"Oxygen" with zero usage. -/
theorem c6_burn_rate_unknown_safe_witness :
    ({ name := some "Oxygen", burn_rate_days := calculate_burn_rate 200 0,
       stock_quantity := some 200, usage_rate_daily := some 0
       : InvItem }).predicted_burn_rate_days = none ∧
    (0 < (10 : ℚ) → calculate_burn_rate 200 10 = some (200 / 10)) ∧
    (generate_fallback_decisions
        [{ name := some "Oxygen", burn_rate_days := calculate_burn_rate 200 0,
           stock_quantity := some 200, usage_rate_daily := some 0 }]
        {} []).decisions = some [] := by
  refine ⟨rfl, ?_, ?_⟩
  · exact (c6_burn_rate_unknown_safe 200 10
      { name := some "Oxygen", burn_rate_days := calculate_burn_rate 200 0,
        stock_quantity := some 200, usage_rate_daily := some 0 }
      {} [] rfl rfl rfl).1
  · exact (c6_burn_rate_unknown_safe 200 10
      { name := some "Oxygen", burn_rate_days := calculate_burn_rate 200 0,
        stock_quantity := some 200, usage_rate_daily := some 0 }
      {} [] rfl rfl rfl).2.2.2.1

/-! Claim C9. -/

/-- C9 (confirmed): the trigger gate launches a quick run exactly when the
event is an INSERT/UPDATE/DELETE on the `drugs` table, the skip counter is
zero and the event arrives at least `min_interval` after the last accepted
trigger; while the counter is positive a qualifying event only decrements it,
regardless of timing; and a suppressed event never moves the debounce
reference time. -/
theorem c9_trigger_gate_characterization (st : GateState) (e : RealtimeEvent) :
    ((handle_db_change st e).2 = true ↔
      (∃ t, e.event_type = some t ∧ t ∈ watched_event_types) ∧
        e.table = some "drugs" ∧ st.skip_count = 0 ∧
        min_interval ≤ e.arrival_time - st.last_run_time) ∧
    ((∃ t, e.event_type = some t ∧ t ∈ watched_event_types) →
      e.table = some "drugs" → 0 < st.skip_count →
      (handle_db_change st e).1.skip_count = st.skip_count - 1 ∧
        (handle_db_change st e).2 = false) ∧
    ((handle_db_change st e).2 = false →
      (handle_db_change st e).1.last_run_time = st.last_run_time) := by
  rcases e with ⟨tbl, ty, time⟩
  unfold handle_db_change
  rcases ty with _ | t
  · simp
  · by_cases hw : t ∈ watched_event_types <;>
      by_cases htbl : tbl = some "drugs" <;>
      rcases Nat.eq_zero_or_pos st.skip_count with hk | hk <;>
      by_cases hdeb : time - st.last_run_time < min_interval <;> simp_all
    · rw [if_neg (not_lt.mpr hdeb)]
      simp
    · omega

/-- Witness for C9 at a qualifying UPDATE on `drugs` with a positive skip
counter. -/
theorem c9_trigger_gate_characterization_witness :
    ((handle_db_change ⟨0, 1⟩ ⟨some "drugs", some "UPDATE", 100⟩).2 = true ↔
      (∃ t, (some "UPDATE" : Option String) = some t ∧ t ∈ watched_event_types) ∧
        (some "drugs" : Option String) = some "drugs" ∧ (1 : ℕ) = 0 ∧
        min_interval ≤ (100 : ℤ) - 0) ∧
    ((handle_db_change ⟨0, 1⟩ ⟨some "drugs", some "UPDATE", 100⟩).1.skip_count = 0 ∧
      (handle_db_change ⟨0, 1⟩ ⟨some "drugs", some "UPDATE", 100⟩).2 = false) ∧
    (handle_db_change ⟨0, 1⟩ ⟨some "drugs", some "UPDATE", 100⟩).1.last_run_time
      = 0 := by
  obtain ⟨h1, h2, h3⟩ :=
    c9_trigger_gate_characterization ⟨0, 1⟩ ⟨some "drugs", some "UPDATE", 100⟩
  refine ⟨h1, h2 ⟨"UPDATE", rfl, by decide⟩ rfl (by decide), h3 (by decide)⟩

/-! Claim C3. -/

/-- C3 (code bug): every quick run raises.  `pipeline.run_quick_pipeline`
invokes `agent_0_inventory.run(run_id, quick_mode=True)`, but
`agent_0_inventory.run` accepts only `run_id`, so the call raises `TypeError`
before either sub-step's body executes and the quick pipeline re-raises
instead of returning a run report. -/
theorem c3_quick_run_type_error (env : QuickEnv) :
    run_quick_pipeline env = .error "TypeError: unexpected keyword argument" :=
  rfl

/-! Claim C1. -/

/-- A drugs-table row for "Propofol" (rank 4) with burn rate 20 days. -/
def c1_item : InvItem :=
  { name := some "Propofol", burn_rate_days := some 20,
    stock_quantity := some 200, usage_rate_daily := some 10 }

/-- An unresolved shortage record for "Propofol". -/
def c1_shortage : ShortageRecord :=
  { drug_name := some "Propofol", source := some "FDA Drug Shortages",
    source_url := some "https://www.fda.gov/drugs/drug-shortages",
    impact_severity := some "HIGH", description := some "Active shortage" }

/-- C1 counterexample: at burn rate 20, rank 4, with an unresolved shortage,
the §4.3 table demands a SUPPLY_CHAIN_RISK decision of severity WARNING, but
the engine emits no decision, no order request and no substitute listing. -/
theorem c1_spec_table_counterexample :
    spec43_action_types 20 4 true = ["SUPPLY_CHAIN_RISK"] ∧
    spec43_severity 20 4 true = some "WARNING" ∧
    (generate_fallback_decisions [c1_item] {} [c1_shortage]).decisions
      = some [] ∧
    (generate_fallback_decisions [c1_item] {} [c1_shortage]).drugs_needing_orders
      = some [] ∧
    (generate_fallback_decisions [c1_item] {}
        [c1_shortage]).drugs_needing_substitutes = some [] := by
  refine ⟨?_, ?_, rfl, rfl, rfl⟩
  · norm_num [spec43_action_types]
  · norm_num [spec43_severity]

/-- C1 as amended: for a monitored drug with known burn rate `b` and rank
`rank`, and any shortage records whatsoever, the engine emits: `b < 3` a
RESTOCK_NOW/CRITICAL decision with an EMERGENCY order; `3 ≤ b < 7` a
RESTOCK_NOW/URGENT decision with an EXPEDITED order; in both cases the drug
is listed for the substitute phase iff `rank ≤ 5`, with no shortage
condition and no emitted SUBSTITUTE_RECOMMENDED decision; `7 ≤ b < 14` a
single SHORTAGE_WARNING/WARNING decision with no escalation and no order;
`b ≥ 14` nothing, even when an unresolved shortage exists (no
SUPPLY_CHAIN_RISK rule). -/
theorem c1_fallback_engine_table (b : ℚ) (rank : Nat) (name : String)
    (item : InvItem) (logs : AgentLogs) (shortages : List ShortageRecord)
    (hburn : pyOrNum item.predicted_burn_rate_days item.burn_rate_days = some b)
    (hname : pyOrStr item.drug_name item.name = some name)
    (hrank : MONITORED_DRUGS.find? (fun d => d.2 == name) = some (rank, name))
    (hlogs : logs.agent_0_drug_analysis = none) :
    (((generate_fallback_decisions [item] logs shortages).decisions.getD []).map
        (fun d => (d.action_type, d.severity)) =
      if b < 3 then [("RESTOCK_NOW", "CRITICAL")]
      else if b < 7 then [("RESTOCK_NOW", "URGENT")]
      else if b < 14 then [("SHORTAGE_WARNING", "WARNING")]
      else []) ∧
    (((generate_fallback_decisions [item] logs
            shortages).drugs_needing_orders.getD []).map
        (fun o => (o.drug_name, o.urgency)) =
      if b < 3 then [(name, "EMERGENCY")]
      else if b < 7 then [(name, "EXPEDITED")]
      else []) ∧
    ((generate_fallback_decisions [item] logs
          shortages).drugs_needing_substitutes.getD [] =
      if b < 7 ∧ rank ≤ 5 then [name] else []) := by
  rw [generate_fallback_decisions_single item logs shortages hlogs]
  simp only [fallback_item_output, hburn, hname, hrank]
  by_cases h3 : b < 3
  · have h7 : b < 7 := by linarith
    by_cases h5 : rank ≤ 5 <;> simp [h3, h7, h5]
  · by_cases h7 : b < 7
    · by_cases h5 : rank ≤ 5 <;> simp [h3, h7, h5]
    · by_cases h14 : b < 14 <;> simp [h3, h7, h14]

/-- Scenario item of §8: "Propofol", stock 50, usage 10/day, burn rate 5. -/
def c1_witness_item : InvItem :=
  { name := some "Propofol", burn_rate_days := some 5,
    stock_quantity := some 50, usage_rate_daily := some 10 }

/-- Witness for C1 at the §8 Propofol scenario (burn rate 5, rank 4, no
shortage records): RESTOCK_NOW/URGENT, an EXPEDITED order, and — unlike the
original claim — a substitute listing despite the absence of any shortage. -/
theorem c1_fallback_engine_table_witness :
    pyOrNum c1_witness_item.predicted_burn_rate_days
      c1_witness_item.burn_rate_days = some 5 ∧
    pyOrStr c1_witness_item.drug_name c1_witness_item.name = some "Propofol" ∧
    MONITORED_DRUGS.find? (fun d => d.2 == "Propofol")
      = some (4, "Propofol") ∧
    (((generate_fallback_decisions [c1_witness_item] {} []).decisions.getD
        []).map (fun d => (d.action_type, d.severity)) =
      [("RESTOCK_NOW", "URGENT")]) ∧
    (((generate_fallback_decisions [c1_witness_item] {}
            []).drugs_needing_orders.getD []).map
        (fun o => (o.drug_name, o.urgency)) = [("Propofol", "EXPEDITED")]) ∧
    ((generate_fallback_decisions [c1_witness_item] {}
          []).drugs_needing_substitutes.getD [] = ["Propofol"]) := by
  obtain ⟨h1, h2, h3⟩ :=
    c1_fallback_engine_table 5 4 "Propofol" c1_witness_item {} [] rfl rfl rfl rfl
  refine ⟨rfl, rfl, rfl, ?_, ?_, ?_⟩
  · rw [h1]
    norm_num
  · rw [h2]
    norm_num
  · rw [h3]
    norm_num

/-! Claim C5. -/

/-- A synthesis payload with empty work lists. -/
def c5_payload : SynthesisResult :=
  { decisions := some []
    drugs_needing_orders := some []
    drugs_needing_substitutes := some []
    schedule_adjustments := some []
    summary := "ok" }

/-- A full-run environment in which exactly one Phase-1 collector raises and
every later phase succeeds. -/
def c5_env : PipelineEnv :=
  { agent_0 := .error "boom", agent_1 := .ok (), agent_2 := .ok (),
    overseer := .ok (some c5_payload),
    agent_3 := .ok (), agent_4 := .ok () }

/-- C5 counterexample: with agent_0 raising and all later phases succeeding,
the collector failure is recorded per agent but never reaches `errors`, so
the run reports status "success", not "completed_with_errors". -/
theorem c5_collector_failure_reports_success :
    (run_pipeline c5_env).phase_1 =
      [("agent_0", "failed"), ("agent_1", "success"), ("agent_2", "success")] ∧
    (run_pipeline c5_env).errors = [] ∧
    (run_pipeline c5_env).status = "success" :=
  ⟨rfl, rfl, rfl⟩

/-- C5 as amended: the final status never depends on the Phase-1 collector
outcomes (they are recorded per agent only); it is "failed" when phase 2
raises or returns no result, "completed_with_errors" exactly when a
conditional phase ran and failed, and "success" otherwise. -/
theorem c5_status_characterization (env : PipelineEnv)
    (a b c : Except String Unit) (e : String) (p : SynthesisResult) :
    ((run_pipeline { env with agent_0 := a, agent_1 := b, agent_2 := c }).status
      = (run_pipeline env).status) ∧
    ((run_pipeline { env with overseer := .error e }).status = "failed") ∧
    ((run_pipeline { env with overseer := .ok none }).status = "failed") ∧
    ((run_pipeline { env with overseer := .ok (some p) }).status
        = "completed_with_errors" ↔
      ((p.drugs_needing_substitutes.getD [] ≠ [] ∧ ∃ e3, env.agent_3 = .error e3) ∨
       (p.drugs_needing_orders.getD [] ≠ [] ∧ ∃ e4, env.agent_4 = .error e4))) ∧
    ((run_pipeline { env with overseer := .ok (some p) }).status = "success" ∨
      (run_pipeline { env with overseer := .ok (some p) }).status
        = "completed_with_errors") := by
  obtain ⟨a0, a1, a2, ov, a3, a4⟩ := env
  refine ⟨?_, rfl, rfl, ?_, ?_⟩
  · rcases ov with e' | p'
    · rfl
    · rcases p' with _ | p' <;> rfl
  · by_cases hS : (p.drugs_needing_substitutes.getD []).isEmpty <;>
      by_cases hO : (p.drugs_needing_orders.getD []).isEmpty <;>
      rcases a3 with e3 | u3 <;> rcases a4 with e4 | u4 <;>
      simp_all [run_pipeline, List.isEmpty_iff]
  · have hne : ∀ (cond : Prop) [Decidable cond],
        (if cond then "success" else "completed_with_errors") = "success" ∨
        (if cond then "success" else "completed_with_errors")
          = "completed_with_errors" := by
      intro cond i
      split <;> simp
    exact hne _

/-! Claim C8. -/

/-- C8 (confirmed): when phase 2 raises, or returns no result, the run
executes only phases 1 and 2 and ends with status "failed"; in every run the
executed phases start with phase 1 then phase 2, and a run that executed
phase 3 or phase 4 had a phase-2 result and did not fail. -/
theorem c8_phase2_gates_conditional_phases (env : PipelineEnv) (e : String) :
    ((run_pipeline { env with overseer := .error e }).executed
        = ["phase_1", "phase_2"] ∧
      (run_pipeline { env with overseer := .error e }).status = "failed") ∧
    ((run_pipeline { env with overseer := .ok none }).executed
        = ["phase_1", "phase_2"] ∧
      (run_pipeline { env with overseer := .ok none }).status = "failed") ∧
    (∃ rest, (run_pipeline env).executed = "phase_1" :: "phase_2" :: rest) ∧
    (("phase_3" ∈ (run_pipeline env).executed ∨
        "phase_4" ∈ (run_pipeline env).executed) →
      ∃ p, env.overseer = .ok (some p) ∧
        (run_pipeline env).status ≠ "failed") := by
  obtain ⟨a0, a1, a2, ov, a3, a4⟩ := env
  refine ⟨⟨rfl, rfl⟩, ⟨rfl, rfl⟩, ?_, ?_⟩
  · rcases ov with e' | p'
    · exact ⟨[], rfl⟩
    · rcases p' with _ | p'
      · exact ⟨[], rfl⟩
      · refine ⟨_, rfl⟩
  · rcases ov with e' | p'
    · intro h
      simp [run_pipeline] at h
    · rcases p' with _ | p'
      · intro h
        simp [run_pipeline] at h
      · intro _
        refine ⟨p', rfl, ?_⟩
        have hne : ∀ (cond : Prop) [Decidable cond],
            (if cond then "success" else "completed_with_errors")
              ≠ "failed" := by
          intro cond i
          split <;> simp
        exact hne _

/-- A synthesis payload that lists one drug for the substitute phase. -/
def c8_payload : SynthesisResult :=
  { c5_payload with drugs_needing_substitutes := some ["Heparin"] }

/-- A full-run environment whose synthesizer lists a substitute drug, so
that phase 3 executes. -/
def c8_env : PipelineEnv :=
  { agent_0 := .ok (), agent_1 := .ok (), agent_2 := .ok (),
    overseer := .ok (some c8_payload),
    agent_3 := .ok (), agent_4 := .ok () }

/-- Witness for C8 at an environment in which phase 3 executes. -/
theorem c8_phase2_gates_conditional_phases_witness :
    ("phase_3" ∈ (run_pipeline c8_env).executed) ∧
    (∃ p, c8_env.overseer = .ok (some p) ∧
      (run_pipeline c8_env).status ≠ "failed") := by
  refine ⟨by decide, ?_⟩
  exact (c8_phase2_gates_conditional_phases c8_env "x").2.2.2
    (Or.inl (by decide))

/-! Claim C7. -/

/-- A decision appearing twice in one synthesis batch. -/
def c7_decision : Decision :=
  { action_type := "RESTOCK_NOW", severity := "CRITICAL",
    drug_name := "Heparin", title := "Critically Low Stock: Heparin",
    description := "Stock for Heparin is critically low.", evidence := [] }

/-- The row the writer persists for `c7_decision` under run token "run-a". -/
def c7_row : AlertInsert := alert_insert_row "run-a" [] c7_decision

/-- C7 counterexample: a single batch containing the same decision twice,
with no alert yet persisted for the run token, persists two alerts with the
identical (actionType, drugName, title) triple under that one token — not
exactly one. -/
theorem c7_same_batch_duplicates_both_persist :
    alert_writer "run-a" [] [c7_decision, c7_decision] [] = [c7_row, c7_row] ∧
    c7_row.run_id = "run-a" ∧
    persisted_key c7_row = alert_key c7_decision :=
  ⟨rfl, rfl, rfl⟩

/-- C7 as amended: the writer skips exactly the decisions whose dedup key is
already persisted for the run token, so (i) no inserted row carries a key
that was already persisted for that token, (ii) a second writer invocation
for the same single decision under the same token inserts nothing, and
(iii) the same decision processed under two different
run tokens inserts one alert in each run.  Duplicates inside one batch are
not collapsed (see the counterexample). -/
theorem c7_dedup_characterization (run_id r1 r2 : String)
    (store : List AlertInsert) (decisions : List Decision)
    (inventory : List InvItem) (d : Decision) :
    (∀ d2 ∈ decisions, alert_key d2 ∈ existing_keys run_id store →
      ∀ a ∈ alert_writer run_id store decisions inventory,
        persisted_key a ≠ alert_key d2) ∧
    (alert_writer run_id (store ++ alert_writer run_id store [d] inventory)
        [d] inventory = []) ∧
    (r1 ≠ r2 →
      (alert_writer r1 [] [d] inventory).length = 1 ∧
      (alert_writer r2 (alert_writer r1 [] [d] inventory) [d]
          inventory).length = 1) := by
  refine ⟨?_, ?_, ?_⟩
  · intro d2 _ hkey a ha
    rw [alert_writer_eq] at ha
    obtain ⟨d3, hd3, rfl⟩ := List.mem_map.mp ha
    obtain ⟨_, hd3k⟩ := List.mem_filter.mp hd3
    rw [persisted_key_insert_row]
    intro heq
    rw [heq] at hd3k
    simp [hkey] at hd3k
  · by_cases h : alert_key d ∈ existing_keys run_id store
    · have h1 : alert_writer run_id store [d] inventory = [] := by
        rw [alert_writer_eq]
        simp [h]
      rw [h1]
      rw [alert_writer_eq]
      simp [h]
    · have h1 : alert_writer run_id store [d] inventory
          = [alert_insert_row run_id inventory d] := by
        rw [alert_writer_eq]
        simp [h]
      rw [h1, alert_writer_eq]
      have hsingle : existing_keys run_id [alert_insert_row run_id inventory d]
          = [alert_key d] := by
        simp [existing_keys, alert_insert_row, persisted_key, alert_key,
          fmtOptStr]
      have hmem : alert_key d ∈ existing_keys run_id
          (store ++ [alert_insert_row run_id inventory d]) := by
        rw [existing_keys_append, hsingle]
        exact List.mem_append.mpr (Or.inr (List.mem_singleton.mpr rfl))
      simp [hmem]
  · intro hne
    have hr1 : alert_writer r1 [] [d] inventory
        = [alert_insert_row r1 inventory d] := by
      rw [alert_writer_eq]
      simp [existing_keys]
    have hkeys : existing_keys r2 [alert_insert_row r1 inventory d] = [] := by
      simp [existing_keys, alert_insert_row, hne]
    constructor
    · simp [hr1]
    · rw [hr1, alert_writer_eq, hkeys]
      simp

/-- Witness for C7 with distinct run tokens "run-a" and "run-b" and a key
already persisted for the current token. -/
theorem c7_dedup_characterization_witness :
    (∀ a ∈ alert_writer "run-a" [c7_row] [c7_decision] [],
      persisted_key a ≠ alert_key c7_decision) ∧
    alert_writer "run-a" ([c7_row] ++ alert_writer "run-a" [c7_row]
        [c7_decision] []) [c7_decision] [] = [] ∧
    ((alert_writer "run-a" [] [c7_decision] []).length = 1 ∧
      (alert_writer "run-b" (alert_writer "run-a" [] [c7_decision] [])
          [c7_decision] []).length = 1) := by
  obtain ⟨h1, h2, h3⟩ :=
    c7_dedup_characterization "run-a" "run-a" "run-b" [c7_row] [c7_decision]
      [] c7_decision
  exact ⟨h1 c7_decision (by decide) (by decide), h2, h3 (by decide)⟩

/-! Claim C2. -/

/-- C2 (confirmed against the spec-modelled derivation): `action_required`
is a pure function of the action type per the fixed table — true for
RESTOCK_NOW, SCHEDULE_CHANGE and SUPPLY_CHAIN_RISK, false for
SHORTAGE_WARNING and SUBSTITUTE_RECOMMENDED — independent of the evidence
content; `source` is the URL of the first evidence entry whose external link
is well formed, else "Stock" when any INVENTORY evidence exists, else
empty. -/
theorem c2_alert_metadata_spec (t : String) (evidence pre post : List Evidence)
    (e : Evidence) :
    (∀ ev2 : List Evidence, (determine_alert_metadata t ev2).action_required
      = (determine_alert_metadata t []).action_required) ∧
    (determine_alert_metadata "RESTOCK_NOW" evidence).action_required
      = true ∧
    (determine_alert_metadata "SCHEDULE_CHANGE" evidence).action_required
      = true ∧
    (determine_alert_metadata "SUPPLY_CHAIN_RISK" evidence).action_required
      = true ∧
    (determine_alert_metadata "SHORTAGE_WARNING" evidence).action_required
      = false ∧
    (determine_alert_metadata "SUBSTITUTE_RECOMMENDED"
        evidence).action_required = false ∧
    ((∀ e2 ∈ pre, is_well_formed_link e2.source_url = false) →
      is_well_formed_link e.source_url = true →
      (determine_alert_metadata t (pre ++ e :: post)).source = e.source_url) ∧
    ((∀ e2 ∈ evidence, is_well_formed_link e2.source_url = false) →
      (determine_alert_metadata t evidence).source =
        if evidence.any (fun e2 => e2.source_type == "INVENTORY") then
          some "Stock"
        else none) := by
  refine ⟨fun ev2 => rfl, rfl, rfl, rfl, rfl, rfl, ?_, ?_⟩
  · intro hpre hwf
    have key : ∀ pre2 : List Evidence,
        (∀ e2 ∈ pre2, is_well_formed_link e2.source_url = false) →
        (pre2 ++ e :: post).find?
          (fun x => is_well_formed_link x.source_url) = some e := by
      intro pre2
      induction pre2 with
      | nil =>
        intro _
        rw [List.nil_append]
        exact List.find?_cons_of_pos _ hwf
      | cons a as ih =>
        intro hall
        rw [List.cons_append, List.find?_cons_of_neg]
        · exact ih fun x hx => hall x (List.mem_cons_of_mem a hx)
        · simp [hall a (List.mem_cons_self a as)]
    simp [determine_alert_metadata, key pre hpre]
  · intro hnone
    have hfind : evidence.find?
        (fun x => is_well_formed_link x.source_url) = none :=
      List.find?_eq_none.mpr fun x hx => by simp [hnone x hx]
    simp [determine_alert_metadata, hfind]

/-- An INVENTORY evidence entry with no URL. -/
def c2_ev_inv : Evidence :=
  { source_type := "INVENTORY", description := "Low stock",
    source_url := none, data_value := "" }

/-- An FDA evidence entry with a well-formed URL. -/
def c2_ev_fda : Evidence :=
  { source_type := "FDA", description := "FDA Report",
    source_url := some "https://fda.gov/shortage", data_value := "" }

/-- Witness for C2 at the unit test's inputs: inventory-only evidence gives
the "Stock" marker, and an external FDA link wins over "Stock". -/
theorem c2_alert_metadata_spec_witness :
    (determine_alert_metadata "RESTOCK_NOW" [c2_ev_inv]).action_required
      = true ∧
    (determine_alert_metadata "SHORTAGE_WARNING"
        ([c2_ev_inv] ++ c2_ev_fda :: [])).source
      = some "https://fda.gov/shortage" ∧
    (determine_alert_metadata "SHORTAGE_WARNING" [c2_ev_inv]).source
      = some "Stock" := by
  obtain ⟨h1, h2, h3, h4, h5, h6, h7, h8⟩ :=
    c2_alert_metadata_spec "SHORTAGE_WARNING" [c2_ev_inv] [c2_ev_inv] []
      c2_ev_fda
  refine ⟨h2, ?_, ?_⟩
  · have := h7 (by decide) (by decide)
    simpa using this
  · have := h8 (by decide)
    simpa using this

/-! Claim C4. -/

/-- A full-run environment in which the overseer returned `None` (as it does
when the reasoning step raised). -/
def c4_env : PipelineEnv :=
  { agent_0 := .ok (), agent_1 := .ok (), agent_2 := .ok (),
    overseer := .ok none, agent_3 := .ok (), agent_4 := .ok () }

/-- C4 counterexample: when the reasoning step raises (the gateway error is
re-raised by `shared.call_dedalus`), `overseer.run`'s outer except returns
`None` rather than a well-formed structure, and the pipeline's
`if not overseer_result` gate aborts the run with status "failed" — the
conditional phases observe an absent result, contradicting the claim. -/
theorem c4_gateway_error_aborts_run :
    (overseer_run (.raised "requests.RequestException") [] {} [] []
        "run-1").1 = none ∧
    (run_pipeline c4_env).status = "failed" ∧
    (run_pipeline c4_env).raised = true ∧
    "phase_3" ∉ (run_pipeline c4_env).executed ∧
    "phase_4" ∉ (run_pipeline c4_env).executed :=
  ⟨rfl, rfl, rfl, by decide, by decide⟩

/-- C4 as amended: when the reasoning step completes but yields no payload,
the synthesizer substitutes the deterministic fallback, which — with no
usable fallback data — is a well-formed structure with an empty decision
list and an explanatory summary, whatever the shortage records; and a run
whose phase 2 returned a payload never aborts and never reports "failed".
Only a raised reasoning step produces the absent-result abort of the
counterexample. -/
theorem c4_fallback_wellformed (shortages : List ShortageRecord)
    (store : List AlertInsert) (run_id : String) (env : PipelineEnv)
    (p : SynthesisResult) :
    (overseer_run (.returned none) [] {} shortages store run_id).1
      = some (generate_fallback_decisions [] {} shortages) ∧
    (generate_fallback_decisions [] {} shortages).decisions = some [] ∧
    (generate_fallback_decisions [] {} shortages).summary
      = "Fallback analysis: " ++ toString (0 : Nat)
        ++ " alerts generated based on inventory burn rates." ∧
    (run_pipeline { env with overseer := .ok (some p) }).raised = false ∧
    (run_pipeline { env with overseer := .ok (some p) }).status ≠ "failed" := by
  obtain ⟨a0, a1, a2, ov, a3, a4⟩ := env
  refine ⟨rfl, rfl, rfl, rfl, ?_⟩
  have hne : ∀ (cond : Prop) [Decidable cond],
      (if cond then "success" else "completed_with_errors") ≠ "failed" := by
    intro cond i
    split <;> simp
  exact hne _

/-! Claim C10. -/

/-- C10 counterexample: when the MCP connection fails, the except branch of
`run_overseer_with_mcp` issues the reasoning call directly — a synthesis
with no preceding cleanup invocation. -/
theorem c10_mcp_failure_skips_cleanup :
    OverseerOp.reasoningCall ∈ run_overseer_with_mcp_ops false false ∧
    OverseerOp.cleanupTool ∉ run_overseer_with_mcp_ops false false :=
  ⟨by decide, by decide⟩

/-- Every row surviving the cleanup tool is acknowledged. -/
lemma delete_redundant_entries_acknowledged (table : List AlertsTableRow)
    (r : AlertsTableRow) (hr : r ∈ delete_redundant_entries table) :
    r.acknowledged = true := by
  obtain ⟨hrt, hcond⟩ := List.mem_filter.mp hr
  by_contra hack
  have hfalse : r.acknowledged = false := by
    revert hack
    cases r.acknowledged <;> simp
  simp at hcond
  exact absurd rfl (hcond r hrt hfalse)

/-- C10 as amended: whenever the MCP connection and tool listing succeed,
the cleanup tool is invoked before any reasoning call (deterministically,
not at the LLM's choice), and the cleanup deletes every alert row with
`acknowledged = False` — regardless of run token, drug or age — so no
unacknowledged alert survives it; but a failed MCP connection synthesizes
without cleanup (see the counterexample). -/
theorem c10_cleanup_semantics (table : List AlertsTableRow) :
    OverseerOp.cleanupTool ∈ run_overseer_with_mcp_ops true true ∧
    (run_overseer_with_mcp_ops true true).indexOf OverseerOp.cleanupTool <
      (run_overseer_with_mcp_ops true true).indexOf
        OverseerOp.reasoningCall ∧
    (∀ r ∈ delete_redundant_entries table, r.acknowledged = true) ∧
    (∀ r ∈ table, r.acknowledged = false →
      r ∉ delete_redundant_entries table) := by
  refine ⟨by decide, by decide, ?_, ?_⟩
  · exact fun r hr => delete_redundant_entries_acknowledged table r hr
  · intro r _ hfalse hmem
    have := delete_redundant_entries_acknowledged table r hmem
    rw [hfalse] at this
    exact Bool.false_ne_true this

/-- An unacknowledged alert row from an earlier run. -/
def c10_row1 : AlertsTableRow :=
  { id := 1, acknowledged := false, run_id := "old-run",
    drug_name := "Heparin", age_days := 30 }

/-- An acknowledged alert row. -/
def c10_row2 : AlertsTableRow :=
  { id := 2, acknowledged := true, run_id := "old-run",
    drug_name := "Insulin", age_days := 2 }

/-- A two-row alerts table. -/
def c10_table : List AlertsTableRow := [c10_row1, c10_row2]

/-- Witness for C10 on a two-row table: the stale unacknowledged row is
deleted, the acknowledged row survives. -/
theorem c10_cleanup_semantics_witness :
    (run_overseer_with_mcp_ops true true).indexOf OverseerOp.cleanupTool <
      (run_overseer_with_mcp_ops true true).indexOf
        OverseerOp.reasoningCall ∧
    c10_row2.acknowledged = true ∧
    c10_row1 ∉ delete_redundant_entries c10_table := by
  obtain ⟨h1, h2, h3, h4⟩ := c10_cleanup_semantics c10_table
  exact ⟨h2, h3 c10_row2 (by decide), h4 c10_row1 (by decide) rfl⟩

end PharmaSentinel
